import Mathlib

/-!
# Verification of the Earth3 FACES dashboard core (`src/app.py`)

Shallow embedding of the scoring, weight-normalization, feed-handling,
stability-indicator, trend and export logic of `app.py` over exact
rationals (`ℚ` stands in for Python floats; the program only performs
ring operations, comparisons, `round(·, 1)`, `max`/`min` clamping and
division, all of which are exact here).

Modelling conventions:
* Python's `round(x, 1)` is modelled by `round1` (round to the nearest
  tenth).  All values the program rounds are far from exact ties, so the
  tie-breaking convention is irrelevant to every statement below.
* A Python exception escaping an expression is modelled by `Except` /
  `Option`: `Except.error` (or `none`) marks the raising outcome.
* A pandas missing value (`NaN`) is modelled by `none`; an ordered
  comparison against `NaN` is `False` in pandas/NumPy, which the helper
  `nanGe` encodes.

The file is organised as all definitions first, then all theorems.
-/

namespace Earth3

/-- Python `round(x, 1)`: round to one decimal place. -/
def round1 (q : ℚ) : ℚ := (round (10 * q) : ℤ) / 10

/-! ### Status tier (app.py lines 198–203) -/

/-- The three-colour classification shown for the composite index. -/
inductive StatusTier where
  | GREEN
  | YELLOW
  | RED
deriving DecidableEq, Repr

/-- Lines 198–203: `if idx >= 70: GREEN elif idx >= 40: YELLOW else: RED`. -/
def statusTier (idx : ℚ) : StatusTier :=
  if 70 ≤ idx then .GREEN
  else if 40 ≤ idx then .YELLOW
  else .RED

/-! ### Weight normalization (app.py lines 166–167)

```python
total = wF + wA + wC + wE + wS
weights = {'F': wF/total, 'A': wA/total, 'C': wC/total, 'E': wE/total, 'S': wS/total}
```

There is no guard on `total`: when `total == 0.0` every division raises
`ZeroDivisionError`, modelled here by `none`.  Python float division
raises exactly when the divisor is zero. -/

/-- The five slider weights divided by their total (lines 166–167);
`none` models the `ZeroDivisionError` raised when the total is zero. -/
def normalizeWeights (w : Fin 5 → ℚ) : Option (Fin 5 → ℚ) :=
  if (∑ i, w i) = 0 then none
  else some (fun i => w i / ∑ j, w j)

/-! ### FACES composite scoring (app.py lines 39–50, `compute_faces_scores`) -/

/-- One normalized metric column: `(df[col] * 100).round(1)` (lines 42–46). -/
def normMetric (raw : ℚ) : ℚ := round1 (raw * 100)

/-- Line 49:
`df['Earth3_Index'] = (F*wF + A*wA + C*wC + E*wE + S*wS).round(1)`,
with the five already-normalized metrics `m` and weights `w`. -/
def earth3Index (m w : Fin 5 → ℚ) : ℚ := round1 (∑ i, m i * w i)

/-- The whole of `compute_faces_scores` on one row: normalize the five
raw metrics (expected on the 0–1 scale), then take the weighted sum
(lines 39–50). -/
def compute_faces_scores (raw w : Fin 5 → ℚ) : ℚ :=
  earth3Index (fun i => normMetric (raw i)) w

/-! ### Feed clients (app.py lines 55–99)

Each fetcher wraps its whole body — the HTTP GET, JSON decoding and field
extraction — in `try/except Exception` and returns an empty value from
the `except` arm.  The network interaction is embedded as a `NetResult`:
either the GET itself raised (unreachable host, timeout), or a response
arrived carrying a status code and a body that either decodes to JSON or
makes `r.json()` raise.  The code never consults the status code (there
is no `raise_for_status`), which the `status` field makes visible.  The
fetchers are total Lean functions into plain result types, so no
exception can escape them, mirroring the blanket `except` clause. -/

/-- Outcome of `requests.get(...)` followed by `r.json()`. -/
inductive NetResult (J : Type) where
  | netFail (reason : String)
  | response (status : ℕ) (body : Except String J)

/-- Fields of `properties` of one GeoJSON feature (each may be absent). -/
structure EqProps where
  place : Option String
  mag : Option ℚ
  time : Option ℤ
deriving DecidableEq, Repr

/-- One GeoJSON feature: properties plus `geometry.coordinates`
(defaulting to `[None, None]`, hence a pair of optional numbers). -/
structure EqFeature where
  props : EqProps
  coords : Option ℚ × Option ℚ
deriving DecidableEq, Repr

/-- The decoded earthquake feed payload: its `features` list. -/
structure EqJson where
  features : List EqFeature
deriving DecidableEq, Repr

/-- One row of the earthquake DataFrame (lines 66–72). -/
structure EqRow where
  place : Option String
  mag : Option ℚ
  time : Option ℤ
  lon : Option ℚ
  lat : Option ℚ
deriving DecidableEq, Repr

/-- Row construction for one feature (lines 62–72); `props.get('time')`
is truthy only when present and nonzero, hence `some 0 ↦ none`. -/
def parseFeature (f : EqFeature) : EqRow :=
  { place := f.props.place
    mag := f.props.mag
    time := match f.props.time with
      | some 0 => none
      | t => t
    lon := f.coords.1
    lat := f.coords.2 }

/-- Lines 55–75, `fetch_earthquakes`: on success the first `limit`
features become rows; any raising path yields the empty DataFrame. -/
def fetch_earthquakes (limit : ℕ) (net : NetResult EqJson) : List EqRow :=
  match net with
  | .netFail _ => []
  | .response _ (.error _) => []
  | .response _ (.ok j) => (j.features.take limit).map parseFeature

/-- The decoded disease-surveillance payload (fields may be absent). -/
structure CovidJson where
  cases : Option ℤ
  todayCases : Option ℤ
  deaths : Option ℤ
  todayDeaths : Option ℤ
  updated : Option ℤ
deriving DecidableEq, Repr

/-- The dict built on lines 82–88; `updated` is converted only when
truthy (nonzero). -/
structure CovidSummary where
  cases : Option ℤ
  todayCases : Option ℤ
  deaths : Option ℤ
  todayDeaths : Option ℤ
  updated : Option ℤ
deriving DecidableEq, Repr

/-- Field extraction of `fetch_covid_summary` (lines 82–88). -/
def parseCovid (j : CovidJson) : CovidSummary :=
  { cases := j.cases
    todayCases := j.todayCases
    deaths := j.deaths
    todayDeaths := j.todayDeaths
    updated := match j.updated with
      | some 0 => none
      | t => t }

/-- Lines 77–90, `fetch_covid_summary`: `none` models the empty dict
`{}` returned from the `except` arm. -/
def fetch_covid_summary (net : NetResult CovidJson) : Option CovidSummary :=
  match net with
  | .netFail _ => none
  | .response _ (.error _) => none
  | .response _ (.ok j) => some (parseCovid j)

/-- An all-null covid payload, e.g. the decoded JSON body `{}`. -/
def emptyCovidJson : CovidJson :=
  { cases := none, todayCases := none, deaths := none,
    todayDeaths := none, updated := none }

/-- The `current_weather` object of the weather payload (fields may be
absent). -/
structure CurrentWeather where
  temperature : Option ℚ
  windspeed : Option ℚ
deriving DecidableEq, Repr

/-- The decoded weather feed payload: an optional `current_weather`
field. -/
structure WeatherJson where
  current_weather : Option CurrentWeather
deriving DecidableEq, Repr

/-- Lines 92–99, `fetch_weather_for`: the body is
`r.json().get('current_weather', {})`, so a successful decode passes the
`current_weather` field through (`{}` — here `none` — when it is
absent); any raising path returns `{}` from the `except` arm.  The
latitude/longitude only parameterize the URL and play no role in the
result handling. -/
def fetch_weather_for (net : NetResult WeatherJson) : Option CurrentWeather :=
  match net with
  | .netFail _ => none
  | .response _ (.error _) => none
  | .response _ (.ok j) => j.current_weather

/-! ### Supply-chain stability indicator (app.py lines 104–121) -/

/-- Embedding of `eq_df['mag'].max()`: pandas skips missing values; when
no numeric value remains the reduction yields `NaN`, modelled as
`none`. -/
def colMax (l : List (Option ℚ)) : Option ℚ :=
  l.foldl (fun acc m =>
    match acc, m with
    | none, m => m
    | acc, none => acc
    | some a, some b => some (max a b)) none

/-- Embedding of `m >= c` where `m` may be `NaN` (`none`): every ordered
comparison against `NaN` is `False` in pandas/NumPy.  (Should the
all-`None` object column make `.max()` return `None` instead of `NaN`,
the guard on line 107 skips the ladder — the same no-penalty outcome.) -/
def nanGe (m : Option ℚ) (c : ℚ) : Bool :=
  match m with
  | some v => decide (c ≤ v)
  | none => false

/-- Line 116, `covid_summary.get('todayCases') or 0`: an absent dict,
an absent key and a null value all give `0`. -/
def todayCasesOf : Option CovidSummary → ℤ
  | none => 0
  | some s => s.todayCases.getD 0

/-- The seismic block (lines 107–114): the ladder runs only for a
non-empty DataFrame and subtracts 40/25/10 from the running score at
thresholds 7.0/6.0/5.0 on the column maximum. -/
def seismicStep (eq : List EqRow) (score : ℚ) : ℚ :=
  if eq.isEmpty then score
  else
    let m := colMax (eq.map (·.mag))
    if nanGe m 7 then score - 40
    else if nanGe m 6 then score - 25
    else if nanGe m 5 then score - 10
    else score

/-- The covid block (lines 116–120): subtract 30 above 500 000 daily
cases, 15 above 100 000. -/
def covidStep (covid : Option CovidSummary) (score : ℚ) : ℚ :=
  let tc := todayCasesOf covid
  if 500000 < tc then score - 30
  else if 100000 < tc then score - 15
  else score

/-- Lines 104–121, `compute_supply_chain_indicator`: start from 100,
apply the seismic block, then the covid block, then
`max(0, round(score, 1))`. -/
def compute_supply_chain_indicator
    (eq : List EqRow) (covid : Option CovidSummary) : ℚ :=
  max 0 (round1 (covidStep covid (seismicStep eq 100)))

/-- Seismic penalty as the spec words it: max magnitude ≥ 7.0 ↦ 40,
≥ 6.0 ↦ 25, ≥ 5.0 ↦ 10, otherwise (including an unavailable feed,
i.e. no magnitude at all) ↦ 0. -/
def specSeismicPenalty : Option ℚ → ℚ
  | none => 0
  | some m => if 7 ≤ m then 40 else if 6 ≤ m then 25 else if 5 ≤ m then 10 else 0

/-- Disease penalty as the spec words it: `newCasesToday` > 500 000 ↦ 30,
> 100 000 ↦ 15, otherwise ↦ 0. -/
def specDiseasePenalty (todayCases : ℤ) : ℚ :=
  if 500000 < todayCases then 30
  else if 100000 < todayCases then 15
  else 0

/-- Stability score as the spec words it: 100 minus the two independent,
additive penalties, floored at 0 and rounded to one decimal. -/
def specStabilityScore (eq : List EqRow) (covid : Option CovidSummary) : ℚ :=
  max 0 (round1 (100 - specSeismicPenalty (colMax (eq.map (·.mag)))
                     - specDiseasePenalty (todayCasesOf covid)))

/-- A single earthquake row carrying only a magnitude. -/
def magRow (m : Option ℚ) : EqRow :=
  { place := none, mag := m, time := none, lon := none, lat := none }

/-- A covid summary carrying only `todayCases`. -/
def casesSummary (n : ℤ) : CovidSummary :=
  { cases := none, todayCases := some n, deaths := none,
    todayDeaths := none, updated := none }

/-! ### 7-day trend generator (app.py lines 126–131)

```python
def generate_7day_trend(base_index):
    rng = np.random.default_rng(seed=42)
    days = [ (datetime.utcnow() - timedelta(days=i)).strftime('%Y-%m-%d') for i in range(6,-1,-1) ]
    variations = rng.normal(loc=0.0, scale=1.5, size=7).cumsum()
    trend = [ max(0, min(100, base_index + v)) for v in variations ]
    return pd.DataFrame({'date': days, 'index': [round(x,1) for x in trend]})
```

A fresh generator is seeded with the constant 42 on every call, so the
seven normal draws are one fixed sequence determined by the seed; the
embedding abstracts that sequence as the argument `deltas` (its exact
floating-point values are irrelevant to the claims, and both calls in
any comparison receive the same one).  `datetime.utcnow()` is an ambient
input, made explicit as `today` (a day number); a date is
`today - offset`. -/

/-- Embedding of `variations = normals.cumsum()`: the `i`-th partial sum
of the seeded draws. -/
def cumDeltas (d : Fin 7 → ℚ) (i : Fin 7) : ℚ :=
  ∑ j : Fin 7, if (j : ℕ) ≤ (i : ℕ) then d j else 0

/-- Lines 126–131, `generate_7day_trend`: seven (date, value) pairs,
oldest first, each value `round(max(0, min(100, base + v)), 1)`. -/
def generate_7day_trend (base : ℚ) (deltas : Fin 7 → ℚ) (today : ℤ) :
    List (ℤ × ℚ) :=
  (List.finRange 7).map fun (i : Fin 7) =>
    (today - (6 - ((i : ℕ) : ℤ)),
     round1 (max 0 (min 100 (base + cumDeltas deltas i))))

/-! ### Metric input loading (app.py lines 22–34 and 141–152)

A CSV cell, after `pd.read_csv`, is a number, a missing value (`NaN`),
or a non-numeric string.  `load_sample_df` (lines 29–34) passes each
metric column through
`pd.to_numeric(errors='coerce').fillna(0).clip(0,1)`.
The upload branch (lines 143–152) runs `pd.read_csv(uploaded)` with no
per-value cleaning at all; only a CSV that fails to parse falls back to
the sample. -/

/-- One CSV cell after `pd.read_csv`. -/
inductive Cell where
  | num (q : ℚ)
  | nan
  | str (s : String)
deriving DecidableEq, Repr

/-- Embedding of `pd.to_numeric(errors='coerce')`: non-numeric text
becomes `NaN` (numeric text was already parsed to a number by
`read_csv`). -/
def toNumericCoerce : Cell → Cell
  | .num q => .num q
  | .nan => .nan
  | .str _ => .nan

/-- Embedding of `.fillna(0)`. -/
def fillna0 : Cell → Cell
  | .nan => .num 0
  | c => c

/-- Embedding of `.clip(0, 1)`. -/
def clip01 : Cell → Cell
  | .num q => .num (min 1 (max 0 q))
  | c => c

/-- The per-cell cleaning applied by `load_sample_df` (line 33). -/
def cleanCell (c : Cell) : Cell := clip01 (fillna0 (toNumericCoerce c))

/-- A table: one row per organization, five metric cells. -/
def Df : Type := List (String × (Fin 5 → Cell))

/-- The rows of `SAMPLE_CSV` (lines 22–27). -/
def SAMPLE_ROWS : Df :=
  [("Unilever", ![.num (78/100), .num (85/100), .num (62/100),
                  .num (71/100), .num (77/100)]),
   ("Microsoft", ![.num (91/100), .num (96/100), .num (40/100),
                   .num (81/100), .num (88/100)]),
   ("Siemens", ![.num (84/100), .num (78/100), .num (55/100),
                 .num (64/100), .num (73/100)]),
   ("SingaporeGov", ![.num (88/100), .num (70/100), .num (30/100),
                      .num (90/100), .num (82/100)])]

/-- Lines 29–34, `load_sample_df`: the sample rows with every metric
cell cleaned. -/
def load_sample_df : Df :=
  SAMPLE_ROWS.map fun r => (r.1, fun i => cleanCell (r.2 i))

/-- The upload branch (lines 143–152): a parsed upload is used as-is,
with no coercion, fill or clip; a failed parse falls back to the
sample. -/
def df_raw_of_upload (uploaded : Except String Df) : Df :=
  match uploaded with
  | .ok d => d
  | .error _ => load_sample_df

/-- One metric column step of `compute_faces_scores` on a cell:
`(df[col] * 100).round(1)`.  A numeric cell is scaled and rounded, `NaN`
propagates, and a string cell makes the pandas expression raise
(`.error`). -/
def normCell : Cell → Except String (Option ℚ)
  | .num q => .ok (some (round1 (q * 100)))
  | .nan => .ok none
  | .str s => .error s

/-- Embedding of `compute_faces_scores` on one row of cells: the five
normalized columns, then the weighted sum of line 49; `NaN` in any
metric makes the index `NaN` (`none`), a string cell raises. -/
def scoreRowIndex (row : Fin 5 → Cell) (w : Fin 5 → ℚ) :
    Except String (Option ℚ) :=
  match normCell (row 0), normCell (row 1), normCell (row 2),
        normCell (row 3), normCell (row 4) with
  | .error m, _, _, _, _ => .error m
  | _, .error m, _, _, _ => .error m
  | _, _, .error m, _, _ => .error m
  | _, _, _, .error m, _ => .error m
  | _, _, _, _, .error m => .error m
  | .ok f, .ok a, .ok c, .ok e, .ok s =>
    .ok (match f, a, c, e, s with
         | some f, some a, some c, some e, some s =>
           some (round1 (f * w 0 + a * w 1 + c * w 2 + e * w 3 + s * w 4))
         | _, _, _, _, _ => none)

/-- Line 176, `compute_faces_scores` over a whole table: every row is
scored; a raising row aborts the computation. -/
def compute_faces_scores_df (df : Df) (w : Fin 5 → ℚ) :
    Except String (List (String × Option ℚ)) :=
  df.mapM fun r => (scoreRowIndex r.2 w).map fun q => (r.1, q)

/-- The default weight dict of line 48. -/
def default_weights : Fin 5 → ℚ := ![1/4, 1/5, 1/5, 1/5, 3/20]

/-! ### CSV export of the scores table (app.py lines 263–266)

`df_scores.to_csv(index=False)` writes each composite index — a
one-decimal value produced by `round(·, 1)` — as its decimal expansion,
i.e. an integer part and one tenths digit; re-reading the CSV parses
that expansion back.  The serialization is embedded at the digit level:
`toCsvCell` is the pair (integer part, tenths digit) the text carries,
`parseCsvCell` its numeric reading. -/

/-- The digits written for a one-decimal value: integer part and tenths
digit. -/
def toCsvCell (q : ℚ) : ℤ × ℤ := (⌊q⌋, ⌊10 * q⌋ - 10 * ⌊q⌋)

/-- Reading the decimal expansion back. -/
def parseCsvCell (p : ℤ × ℤ) : ℚ := (p.1 : ℚ) + (p.2 : ℚ) / 10

/-- Export of the organization → index column of `df_scores`. -/
def exportScores (t : List (String × ℚ)) : List (String × (ℤ × ℤ)) :=
  t.map fun r => (r.1, toCsvCell r.2)

/-- Re-parsing the exported rows. -/
def parseScores (t : List (String × (ℤ × ℤ))) : List (String × ℚ) :=
  t.map fun r => (r.1, parseCsvCell r.2)

/-! ## Theorems -/

/-! ### Facts about `round1` -/

theorem round1_mono {a b : ℚ} (h : a ≤ b) : round1 a ≤ round1 b := by
  unfold round1
  have h10 : (10 : ℚ) * a ≤ 10 * b := by linarith
  have : round (10 * a) ≤ round (10 * b) := by
    rw [round_eq, round_eq]
    exact Int.floor_mono (by linarith)
  have : ((round (10 * a) : ℤ) : ℚ) ≤ ((round (10 * b) : ℤ) : ℚ) := by
    exact_mod_cast this
  linarith

theorem round1_zero : round1 0 = 0 := by
  unfold round1
  norm_num

theorem round1_hundred : round1 100 = 100 := by
  have h : (10 : ℚ) * 100 = ((1000 : ℤ) : ℚ) := by norm_num
  unfold round1
  rw [h, round_intCast]
  norm_num

/-- `round1` maps `[0, 100]` into `[0, 100]`. -/
theorem round1_mem_Icc {x : ℚ} (h0 : 0 ≤ x) (h100 : x ≤ 100) :
    0 ≤ round1 x ∧ round1 x ≤ 100 := by
  constructor
  · have := round1_mono h0
    rwa [round1_zero] at this
  · have := round1_mono h100
    rwa [round1_hundred] at this

theorem round1_int (n : ℤ) : round1 ((n : ℤ) : ℚ) = n := by
  unfold round1
  have h : (10 : ℚ) * ((n : ℤ) : ℚ) = ((10 * n : ℤ) : ℚ) := by push_cast; ring
  rw [h, round_intCast]
  push_cast
  field_simp

theorem round1_thirty : round1 30 = 30 := by exact_mod_cast round1_int 30
theorem round1_sixty : round1 60 = 60 := by exact_mod_cast round1_int 60
theorem round1_seventy : round1 70 = 70 := by exact_mod_cast round1_int 70

/-! ### C4: status tier boundaries -/

/-- **C4.** The status tier is GREEN exactly when the index is ≥ 70,
YELLOW exactly when 40 ≤ index < 70 and RED exactly when index < 40; the
boundaries belong to the higher tier: 70.0 ↦ GREEN, 69.9 ↦ YELLOW,
40.0 ↦ YELLOW, 39.9 ↦ RED. -/
theorem statusTier_spec (idx : ℚ) :
    (statusTier idx = .GREEN ↔ 70 ≤ idx) ∧
    (statusTier idx = .YELLOW ↔ 40 ≤ idx ∧ idx < 70) ∧
    (statusTier idx = .RED ↔ idx < 40) ∧
    statusTier 70 = .GREEN ∧ statusTier (699/10) = .YELLOW ∧
    statusTier 40 = .YELLOW ∧ statusTier (399/10) = .RED := by
  refine ⟨?_, ?_, ?_, by norm_num [statusTier], by norm_num [statusTier],
    by norm_num [statusTier], by norm_num [statusTier]⟩ <;>
    · unfold statusTier
      split_ifs with h1 h2 <;>
        simp_all <;> linarith

/-! ### C2 and C5: weight normalization -/

/-- **C2 (counter-evaluation).** With all five sliders at `0.0` the code
raises `ZeroDivisionError` (modelled: `none`) instead of substituting
the uniform vector `0.2` that the spec requires — the normalization step
has no degenerate-sum guard at all. -/
theorem normalizeWeights_all_zero_raises :
    normalizeWeights (fun _ => 0) = none := by
  unfold normalizeWeights
  simp

/-- **C5.** For every five-weight input with positive sum, normalization
succeeds, the outputs sum to 1 (hence are within `1e-9` of 1) and every
output weight is the corresponding input divided by the input sum, so
the relative ratios are preserved. -/
theorem normalizeWeights_pos_sum (w : Fin 5 → ℚ) (h : 0 < ∑ i, w i) :
    ∃ v, normalizeWeights w = some v ∧
      |(∑ i, v i) - 1| ≤ 1 / 1000000000 ∧
      ∀ i, v i = w i / ∑ j, w j := by
  have hne : (∑ i, w i) ≠ 0 := ne_of_gt h
  refine ⟨fun i => w i / ∑ j, w j, ?_, ?_, fun i => rfl⟩
  · unfold normalizeWeights
    simp [hne]
  · have hsum : (∑ i, w i / ∑ j, w j) = (∑ i, w i) / ∑ j, w j :=
      (Finset.sum_div _ _ _).symm
    rw [hsum, div_self hne]
    norm_num

/-- Witness for C5 at the concrete input `(1/5, 1/5, 1/5, 1/5, 1/5)`. -/
theorem normalizeWeights_pos_sum_witness :
    ∃ v, normalizeWeights (fun _ => (1:ℚ)/5) = some v ∧
      |(∑ i, v i) - 1| ≤ 1 / 1000000000 ∧
      ∀ i, v i = (1:ℚ)/5 / ∑ _j : Fin 5, (1:ℚ)/5 :=
  normalizeWeights_pos_sum (fun _ => (1:ℚ)/5)
    (by norm_num [Fin.sum_univ_five])

/-! ### C3: composite scoring -/

/-- **C3.** With the five normalized metrics in `[0,100]` and a
normalized weight vector, the composite index is the dot product of
metrics and weights rounded to one decimal, lies in `[0,100]`, and is
deterministic (equal inputs give equal outputs). -/
theorem earth3Index_spec (m w : Fin 5 → ℚ)
    (hm : ∀ i, 0 ≤ m i ∧ m i ≤ 100)
    (hw0 : ∀ i, 0 ≤ w i) (hw1 : (∑ i, w i) = 1) :
    earth3Index m w = round1 (∑ i, m i * w i) ∧
    (0 ≤ earth3Index m w ∧ earth3Index m w ≤ 100) ∧
    (∀ m' w', m = m' → w = w' → earth3Index m w = earth3Index m' w') ∧
    (∀ raw, (∀ i, m i = normMetric (raw i)) →
      compute_faces_scores raw w = earth3Index m w) := by
  have hlo : 0 ≤ ∑ i, m i * w i :=
    Finset.sum_nonneg fun i _ => mul_nonneg (hm i).1 (hw0 i)
  have hhi : (∑ i, m i * w i) ≤ 100 := by
    calc (∑ i, m i * w i) ≤ ∑ i, 100 * w i :=
          Finset.sum_le_sum fun i _ =>
            mul_le_mul_of_nonneg_right (hm i).2 (hw0 i)
      _ = 100 := by rw [← Finset.mul_sum, hw1, mul_one]
  refine ⟨rfl, ?_, ?_, ?_⟩
  · exact round1_mem_Icc hlo hhi
  · intro m' w' hm' hw'
    rw [hm', hw']
  · intro raw hraw
    unfold compute_faces_scores
    congr 1
    funext i
    exact (hraw i).symm

/-- Witness for C3 at metrics all `50`, weights all `1/5`. -/
theorem earth3Index_spec_witness :
    earth3Index (fun _ => (50:ℚ)) (fun _ => (1:ℚ)/5) =
      round1 (∑ _i : Fin 5, (50:ℚ) * ((1:ℚ)/5)) ∧
    (0 ≤ earth3Index (fun _ => (50:ℚ)) (fun _ => (1:ℚ)/5) ∧
      earth3Index (fun _ => (50:ℚ)) (fun _ => (1:ℚ)/5) ≤ 100) ∧
    (∀ m' w', (fun _ : Fin 5 => (50:ℚ)) = m' → (fun _ : Fin 5 => (1:ℚ)/5) = w' →
      earth3Index (fun _ => (50:ℚ)) (fun _ => (1:ℚ)/5) = earth3Index m' w') ∧
    (∀ raw, (∀ i, (50:ℚ) = normMetric (raw i)) →
      compute_faces_scores raw (fun _ => (1:ℚ)/5) =
        earth3Index (fun _ => (50:ℚ)) (fun _ => (1:ℚ)/5)) :=
  earth3Index_spec (fun _ => (50:ℚ)) (fun _ => (1:ℚ)/5)
    (fun _ => by norm_num) (fun _ => by norm_num)
    (by norm_num [Fin.sum_univ_five])

/-! ### C7: feed failure handling -/

/-- **C7 (counterexample).** The claim says a non-2xx response collapses
to the Unavailable outcome (the empty result value).  But the fetchers
never read the status code: a 500 response whose body decodes as JSON
(here `{}`) makes `fetch_covid_summary` return the dict of all-null
fields — a `some`, not the empty dict `none` that represents
Unavailable. -/
theorem fetch_covid_non2xx_not_empty :
    fetch_covid_summary (.response 500 (.ok emptyCovidJson)) =
      some (parseCovid emptyCovidJson) ∧
    some (parseCovid emptyCovidJson) ≠ (none : Option CovidSummary) := by
  exact ⟨rfl, by simp⟩

/-- **C7 (amended).** For each of the three fetchers — seismic, disease
and weather — an unreachable endpoint or timeout (`netFail`) and an
unparseable body collapse to the empty result, and no exception escapes
(the fetchers are total).  The status code is never consulted: a
response is processed identically whatever its status, as on success.
A successful decode of the earthquake body yields its parsed features
(so a JSON body without `features` yields the empty row set), of the
weather body its `current_weather` field (`{}` when absent), and of the
disease body always a `some` summary — even an all-null one — never the
empty dict. -/
theorem fetch_feeds_fail_open (limit : ℕ) (reason : String)
    (s s' : ℕ) (je : EqJson) (jc : CovidJson) (jw : WeatherJson) :
    fetch_earthquakes limit (.netFail reason) = [] ∧
    fetch_covid_summary (.netFail reason) = none ∧
    fetch_weather_for (.netFail reason) = none ∧
    fetch_earthquakes limit (.response s (.error reason)) = [] ∧
    fetch_covid_summary (.response s (.error reason)) = none ∧
    fetch_weather_for (.response s (.error reason)) = none ∧
    fetch_earthquakes limit (.response s (.ok je)) =
      fetch_earthquakes limit (.response s' (.ok je)) ∧
    fetch_covid_summary (.response s (.ok jc)) =
      fetch_covid_summary (.response s' (.ok jc)) ∧
    fetch_weather_for (.response s (.ok jw)) =
      fetch_weather_for (.response s' (.ok jw)) ∧
    fetch_earthquakes limit (.response s (.ok ⟨[]⟩)) = [] ∧
    fetch_weather_for (.response s (.ok ⟨none⟩)) = none ∧
    fetch_weather_for (.response s (.ok jw)) = jw.current_weather ∧
    fetch_covid_summary (.response s (.ok jc)) = some (parseCovid jc) :=
  ⟨rfl, rfl, rfl, rfl, rfl, rfl, rfl, rfl, rfl,
   by simp [fetch_earthquakes], rfl, rfl, rfl⟩

/-! ### C1 and C10: stability indicator -/

/-- The seismic block subtracts exactly the spec's seismic penalty. -/
theorem seismicStep_eq (eq : List EqRow) (s : ℚ) :
    seismicStep eq s = s - specSeismicPenalty (colMax (eq.map (·.mag))) := by
  unfold seismicStep
  cases h : eq.isEmpty with
  | true =>
    have he : eq = [] := List.isEmpty_iff.mp h
    subst he
    simp [colMax, specSeismicPenalty]
  | false =>
    rw [if_neg (by simp)]
    generalize colMax (eq.map (·.mag)) = M
    cases M with
    | none => simp [nanGe, specSeismicPenalty]
    | some m =>
      simp only [nanGe, specSeismicPenalty, decide_eq_true_eq]
      split_ifs <;> ring

/-- The covid block subtracts exactly the spec's disease penalty. -/
theorem covidStep_eq (covid : Option CovidSummary) (s : ℚ) :
    covidStep covid s = s - specDiseasePenalty (todayCasesOf covid) := by
  simp only [covidStep, specDiseasePenalty]
  split_ifs <;> ring

/-- The indicator is the spec's penalty formula. -/
theorem sci_eq_specStabilityScore (eq : List EqRow) (covid : Option CovidSummary) :
    compute_supply_chain_indicator eq covid = specStabilityScore eq covid := by
  unfold compute_supply_chain_indicator specStabilityScore
  rw [covidStep_eq, seismicStep_eq]

/-- **C1.** The indicator equals 100 minus the additive seismic
(40/25/10 at thresholds 7.0/6.0/5.0 on the maximum magnitude, 0 when the
feed yields no magnitude) and disease (30 above 500 000 daily cases, 15
above 100 000, otherwise 0) penalties, floored at 0 and rounded to one
decimal; in particular max magnitude 7.2 alone gives 60.0, 600 000 daily
cases alone gives 70.0, both at maximum severity give 30.0, and no data
gives 100.0. -/
theorem compute_supply_chain_indicator_spec
    (eq : List EqRow) (covid : Option CovidSummary) :
    compute_supply_chain_indicator eq covid = specStabilityScore eq covid ∧
    compute_supply_chain_indicator [magRow (some (72/10))] none = 60 ∧
    compute_supply_chain_indicator [] (some (casesSummary 600000)) = 70 ∧
    compute_supply_chain_indicator [magRow (some (72/10))]
      (some (casesSummary 600000)) = 30 ∧
    compute_supply_chain_indicator [] none = 100 := by
  refine ⟨sci_eq_specStabilityScore eq covid, ?_, ?_, ?_, ?_⟩ <;>
    rw [sci_eq_specStabilityScore] <;>
      norm_num [specStabilityScore, specSeismicPenalty, specDiseasePenalty,
        colMax, magRow, casesSummary, todayCasesOf, max_def,
        round1_thirty, round1_sixty, round1_seventy, round1_hundred]

/-- All-missing magnitudes make `colMax` yield `NaN` (`none`). -/
theorem colMax_all_none (l : List (Option ℚ))
    (h : ∀ x ∈ l, x = none) : colMax l = none := by
  unfold colMax
  induction l with
  | nil => rfl
  | cons hd tl ih =>
    have hhd : hd = none := h hd (List.mem_cons_self hd tl)
    subst hhd
    exact ih fun x hx => h x (List.mem_cons_of_mem _ hx)

/-- **C10.** A non-empty earthquake result set whose every magnitude is
missing is processed without error and without seismic penalty: the
column maximum is `NaN`, every threshold comparison on it is false, and
the score equals the score with no seismic data at all. -/
theorem compute_supply_chain_indicator_all_nan_mags
    (eq : List EqRow) (covid : Option CovidSummary)
    (_hne : eq ≠ []) (hmags : ∀ r ∈ eq, r.mag = none) :
    compute_supply_chain_indicator eq covid =
      compute_supply_chain_indicator [] covid := by
  have hmax : colMax (eq.map (·.mag)) = none := by
    apply colMax_all_none
    intro x hx
    rcases List.mem_map.mp hx with ⟨r, hr, hrx⟩
    rw [← hrx]
    exact hmags r hr
  unfold compute_supply_chain_indicator
  rw [seismicStep_eq, seismicStep_eq, hmax]
  simp [colMax, specSeismicPenalty]

/-- Witness for C10: one row with a missing magnitude, no disease data;
both sides evaluate to 100. -/
theorem compute_supply_chain_indicator_all_nan_mags_witness :
    compute_supply_chain_indicator [magRow none] none =
      compute_supply_chain_indicator [] none :=
  compute_supply_chain_indicator_all_nan_mags [magRow none] none
    (by simp) (by simp [magRow])

/-! ### C6: trend generator -/

/-- **C6.** With the seeded draw sequence and the current date fixed
(the code reseeds with the constant 42 on every call, so two calls with
the same index see the same draws), two invocations with identical
arguments produce the identical series, the series has exactly 7
entries, and every value lies in `[0, 100]`. -/
theorem generate_7day_trend_spec (base : ℚ) (deltas : Fin 7 → ℚ) (today : ℤ) :
    generate_7day_trend base deltas today =
      generate_7day_trend base deltas today ∧
    (generate_7day_trend base deltas today).length = 7 ∧
    ∀ p ∈ generate_7day_trend base deltas today, 0 ≤ p.2 ∧ p.2 ≤ 100 := by
  refine ⟨rfl, by
    unfold generate_7day_trend
    rw [List.length_map, List.length_finRange], ?_⟩
  intro p hp
  rcases List.mem_map.mp hp with ⟨i, _, hip⟩
  have hlo : (0 : ℚ) ≤ max 0 (min 100 (base + cumDeltas deltas i)) :=
    le_max_left 0 _
  have hhi : max 0 (min 100 (base + cumDeltas deltas i)) ≤ 100 :=
    max_le (by norm_num) (min_le_left 100 _)
  have := round1_mem_Icc hlo hhi
  rw [← hip]
  exact this

/-! ### C8: metric cleaning and the upload path -/

/-- **C8 (counterexample).** The claim says malformed metric input never
aborts the scoring pipeline; but the upload branch applies no cleaning,
so an uploaded row whose metric cells hold the non-numeric string
`"abc"` makes the scoring computation raise (`.error`) instead of
degrading. -/
theorem upload_malformed_aborts :
    compute_faces_scores_df
      (df_raw_of_upload (.ok [("BadCo", fun _ => Cell.str "abc")]))
      default_weights = .error "abc" := rfl

/-- Any row containing a string cell makes `scoreRowIndex` raise. -/
theorem scoreRowIndex_str_error (row : Fin 5 → Cell) (w : Fin 5 → ℚ)
    (i : Fin 5) (s : String) (hi : row i = Cell.str s) :
    ∃ m, scoreRowIndex row w = .error m := by
  have herr : normCell (row i) = .error s := by rw [hi]; rfl
  unfold scoreRowIndex
  cases h0 : normCell (row 0) <;> cases h1 : normCell (row 1) <;>
    cases h2 : normCell (row 2) <;> cases h3 : normCell (row 3) <;>
      cases h4 : normCell (row 4)
  all_goals first
    | exact ⟨_, rfl⟩
    | (exfalso; fin_cases i <;> simp_all)

/-- **C8 (amended).** The sample-loading path does clean every cell:
missing and non-numeric values map to 0 and numeric values are clamped
to the declared `[0,1]` scale, so every cleaned cell is a number in
`[0,1]`.  The upload path, however, performs no cleaning: a parsed
upload is used verbatim (so a non-numeric cell aborts the scoring
computation and out-of-range values are scored unclamped), and only an
upload that fails CSV parsing falls back to the cleaned sample. -/
theorem metric_cleaning_spec (q : ℚ) (s : String) (df : Df)
    (reason : String) (row : Fin 5 → Cell) (w : Fin 5 → ℚ) :
    cleanCell (Cell.num q) = Cell.num (min 1 (max 0 q)) ∧
    cleanCell Cell.nan = Cell.num 0 ∧
    cleanCell (Cell.str s) = Cell.num 0 ∧
    (∃ q', cleanCell (Cell.num q) = Cell.num q' ∧ 0 ≤ q' ∧ q' ≤ 1) ∧
    df_raw_of_upload (.ok df) = df ∧
    df_raw_of_upload (.error reason) = load_sample_df ∧
    (∀ i s', row i = Cell.str s' → ∃ m, scoreRowIndex row w = .error m) ∧
    (∀ raw : Fin 5 → ℚ,
      scoreRowIndex (fun i => Cell.num (raw i)) w =
        .ok (some (compute_faces_scores raw w))) := by
  refine ⟨rfl, rfl, rfl, ⟨min 1 (max 0 q), rfl, ?_, min_le_left _ _⟩,
    rfl, rfl, fun i s' hi => scoreRowIndex_str_error row w i s' hi, ?_⟩
  · exact le_min (by norm_num) (le_max_left 0 q)
  · intro raw
    unfold scoreRowIndex normCell compute_faces_scores earth3Index normMetric
    simp [Fin.sum_univ_five]

/-- Witness for C8 (amended) at concrete inputs. -/
theorem metric_cleaning_spec_witness :
    cleanCell (Cell.num (5/2)) = Cell.num (min 1 (max 0 (5/2))) ∧
    cleanCell Cell.nan = Cell.num 0 ∧
    cleanCell (Cell.str "abc") = Cell.num 0 ∧
    (∃ q', cleanCell (Cell.num (5/2)) = Cell.num q' ∧ 0 ≤ q' ∧ q' ≤ 1) ∧
    df_raw_of_upload (.ok []) = [] ∧
    df_raw_of_upload (.error "bad csv") = load_sample_df ∧
    (∀ i s', (fun _ : Fin 5 => Cell.str "abc") i = Cell.str s' →
      ∃ m, scoreRowIndex (fun _ => Cell.str "abc") default_weights = .error m) ∧
    (∀ raw : Fin 5 → ℚ,
      scoreRowIndex (fun i => Cell.num (raw i)) default_weights =
        .ok (some (compute_faces_scores raw default_weights))) :=
  metric_cleaning_spec (5/2) "abc" [] "bad csv"
    (fun _ => Cell.str "abc") default_weights

/-! ### C9: CSV round trip -/

/-- Every output of `round1` is an integer number of tenths. -/
theorem round1_tenths (x : ℚ) : ∃ k : ℤ, round1 x = (k : ℚ) / 10 :=
  ⟨round (10 * x), rfl⟩

theorem parse_toCsvCell (k : ℤ) :
    parseCsvCell (toCsvCell ((k : ℚ) / 10)) = (k : ℚ) / 10 := by
  unfold parseCsvCell toCsvCell
  have h10 : (10 : ℚ) * ((k : ℚ) / 10) = ((k : ℤ) : ℚ) := by field_simp
  have hfk : ⌊(10 : ℚ) * ((k : ℚ) / 10)⌋ = k := by rw [h10, Int.floor_intCast]
  have hfd : ⌊(k : ℚ) / 10⌋ = k / 10 := by
    have h := Rat.floor_intCast_div_natCast k 10
    norm_num at h
    exact h
  rw [hfk, hfd]
  have := Int.ediv_add_emod k 10
  push_cast
  have h1 : ((k / 10 : ℤ) : ℚ) * 10 + ((k - 10 * (k / 10) : ℤ) : ℚ) = (k : ℚ) := by
    push_cast
    have h2 : ((k / 10 : ℤ) : ℚ) * 10 = (((10 * (k / 10)) : ℤ) : ℚ) := by
      push_cast; ring
    linarith [h2]
  field_simp
  linarith [h1]

/-- **C9.** Exporting the computed scores to the comma-separated format
and re-parsing it returns the organization → index mapping unchanged
(exactly, hence within the 0.1 rounding tolerance), for every table
whose indices are nonnegative one-decimal values as produced by
`round1`. -/
theorem export_parse_round_trip (t : List (String × ℚ))
    (h : ∀ r ∈ t, 0 ≤ r.2 ∧ ∃ k : ℤ, r.2 = (k : ℚ) / 10) :
    parseScores (exportScores t) = t := by
  unfold parseScores exportScores
  rw [List.map_map]
  conv_rhs => rw [← List.map_id t]
  apply List.map_congr_left
  intro r hr
  rcases h r hr with ⟨_, k, hk⟩
  show (r.1, parseCsvCell (toCsvCell r.2)) = id r
  rw [hk, parse_toCsvCell k, ← hk, id]

/-- Witness for C9: the row `("Unilever", 76.5)` survives the round
trip. -/
theorem export_parse_round_trip_witness :
    parseScores (exportScores [("Unilever", (765 : ℚ) / 10)]) =
      [("Unilever", (765 : ℚ) / 10)] :=
  export_parse_round_trip [("Unilever", (765 : ℚ) / 10)]
    (by
      intro r hr
      simp only [List.mem_singleton] at hr
      subst hr
      exact ⟨by norm_num, 765, by norm_num⟩)

end Earth3
